import Mathlib

/-!
Verification of the retrieval-and-refusal gating pipeline of the
Existentialism corpus agent (files `rag.py` and `app.py`).

The Python code is shallowly embedded: pure string manipulation becomes
executable Lean functions on `String` / `List Char`; the fixed regular
expression tables are embedded via a small pattern language `Pat` whose
search semantics models Python `re.search` (truthiness only) for the
constructs those tables use (literals, character classes, alternation,
optional groups, and the word-boundary anchor); floating point similarity
scores are modelled as rationals (the code only ever compares them, never
does arithmetic on them, and the threshold 0.25 is exact); the faiss
index search and the HTTP generation service are modelled by their
reported results (`SearchResult`, `ServiceResult`), which is all the
code ever inspects.
-/

namespace ExistAgent

/-- Model of Python `str.lower()` for the ASCII strings handled here:
`Char.toLower` lower-cases exactly the ASCII letters. -/
def pyLower (s : String) : String :=
  String.mk (s.data.map Char.toLower)

/-- Python whitespace characters stripped by `str.strip()`. -/
def isPyWS (c : Char) : Bool :=
  c == ' ' || c == '\t' || c == '\n' || c == '\x0d' || c == '\x0b' || c == '\x0c'

/-- Model of Python `str.strip()`: drop whitespace from both ends. -/
def pyStrip (s : String) : String :=
  String.mk (((s.data.dropWhile isPyWS).reverse.dropWhile isPyWS).reverse)

/-- True when `needle` is a leading piece of `hay` (character-wise). -/
def matchesAt : List Char → List Char → Bool
  | [], _ => true
  | _ :: _, [] => false
  | c :: cs, h :: hs => c == h && matchesAt cs hs

/-- Model of the Python substring test `needle in hay`. -/
def containsSub (needle hay : List Char) : Bool :=
  matchesAt needle hay ||
    (match hay with
     | [] => false
     | _ :: hs => containsSub needle hs)

/-- Model of Python `sep.join(parts)`. -/
def joinWith (sep : String) : List String → String
  | [] => ""
  | [s] => s
  | s :: rest => s ++ sep ++ joinWith sep rest

/-! ### A tiny regular-expression language

Exactly the constructs used by the two pattern tables in `rag.py`:
character literals, the character class `[- ]`, sequencing, alternation
`(x|y)`, the optional group `(...)?`, and the word-boundary anchor. -/

/-- Pattern syntax for the fixed regex tables. -/
inductive Pat where
  | eps : Pat
  | lit : Char → Pat
  | cls : List Char → Pat
  | wb : Pat
  | seq : Pat → Pat → Pat
  | alt : Pat → Pat → Pat
  | opt : Pat → Pat

/-- Regex word character, Python `\w` for ASCII input. -/
def isWordChar (c : Char) : Bool :=
  c.isAlpha || c.isDigit || c == '_'

/-- Word boundary test between the previously consumed character (none at
the start of the string) and the next character (none at the end). -/
def atBoundary (prev : Option Char) (rest : List Char) : Bool :=
  let pw := match prev with | none => false | some c => isWordChar c
  let nw := match rest with | [] => false | c :: _ => isWordChar c
  pw != nw

/-- All ways a pattern can match a leading piece of `s`, given the
character just before `s` (for word boundaries).  Each outcome is the
remaining input together with the new previous character.  Since the
tables use no repetition operators, structural recursion suffices. -/
def matchPat : Pat → List Char → Option Char → List (List Char × Option Char)
  | .eps, s, prev => [(s, prev)]
  | .lit c, s, _ =>
    match s with
    | [] => []
    | x :: rest => if x == c then [(rest, some x)] else []
  | .cls cs, s, _ =>
    match s with
    | [] => []
    | x :: rest => if cs.contains x then [(rest, some x)] else []
  | .wb, s, prev => if atBoundary prev s then [(s, prev)] else []
  | .seq p q, s, prev =>
    (matchPat p s prev).flatMap (fun st => matchPat q st.1 st.2)
  | .alt p q, s, prev => matchPat p s prev ++ matchPat q s prev
  | .opt p, s, prev => (s, prev) :: matchPat p s prev

/-- Try to match `p` at every start position of `s`; `prev` is the
character before the current position. -/
def searchFrom (p : Pat) (s : List Char) (prev : Option Char) : Bool :=
  !(matchPat p s prev).isEmpty ||
    (match s with
     | [] => false
     | c :: rest => searchFrom p rest (some c))

/-- Model of the truthiness of Python `re.search(p, s)`. -/
def regexSearch (p : Pat) (s : String) : Bool :=
  searchFrom p s.data none

/-- Sequence a list of patterns. -/
def pseq : List Pat → Pat
  | [] => .eps
  | p :: ps => .seq p (pseq ps)

/-- Pattern matching a literal string. -/
def strPat (s : String) : Pat :=
  pseq (s.data.map Pat.lit)

/-- Pattern for a whole word: a literal string between two boundaries. -/
def wordPat (s : String) : Pat :=
  pseq [.wb, strPat s, .wb]

/-- The character class standing for a hyphen or a space. -/
def dashOrSpace : Pat := .cls ['-', ' ']

/-! ### The fixed pattern tables of `rag.py` -/

/-- Embedding of `ALLOWED_TOPIC_PATTERNS` from `rag.py`. -/
def ALLOWED_TOPIC_PATTERNS : List Pat :=
  [ pseq [.wb, strPat "existential",
      .opt (.alt (strPat "ism") (strPat "ist")), .wb],
    wordPat "sartre",
    pseq [.wb, strPat "jean", dashOrSpace, strPat "paul", .wb],
    wordPat "beauvoir", wordPat "simone",
    wordPat "camus", wordPat "heidegger",
    wordPat "husserl",
    pseq [.wb, strPat "merleau", dashOrSpace, strPat "ponty", .wb],
    wordPat "jaspers",
    wordPat "existence", wordPat "exist", wordPat "to exist",
    wordPat "being", wordPat "essence",
    wordPat "bad faith", wordPat "mauvaise foi",
    wordPat "existence precedes essence",
    wordPat "freedom",
    pseq [.wb, strPat "responsibilit",
      .alt (strPat "y") (strPat "ies"), .wb],
    pseq [.wb, strPat "authentic", .opt (strPat "ity"), .wb],
    wordPat "anguish", wordPat "abandonment",
    pseq [.wb, strPat "for", dashOrSpace, strPat "itself", .wb],
    pseq [.wb, strPat "in", dashOrSpace, strPat "itself", .wb] ]

/-- Embedding of `BANNED_QUERY_PATTERNS` from `rag.py`. -/
def BANNED_QUERY_PATTERNS : List Pat :=
  [ wordPat "depression", wordPat "anxiety", wordPat "therapy",
    pseq [.wb, strPat "treat", .opt (strPat "ment"), .wb],
    pseq [.wb, strPat "psychiatr",
      .alt (strPat "y") (strPat "ic"), .wb],
    pseq [.wb, strPat "psycholog",
      .alt (strPat "y") (strPat "ical"), .wb],
    pseq [.wb, strPat "diagnos",
      .alt (strPat "e") (strPat "is"), .wb],
    wordPat "cope",
    pseq [.wb, strPat "heal", .opt (strPat "ing"), .wb],
    pseq [.wb, strPat "well", .opt dashOrSpace, strPat "being", .wb],
    wordPat "what should i do", wordPat "should i", wordPat "help me",
    wordPat "overcome",
    wordPat "steps", wordPat "advice",
    wordPat "compare", wordPat "vs", wordPat "versus",
    pseq [.wb, strPat "stoic", .opt (strPat "ism"), .wb],
    pseq [.wb, strPat "buddh",
      .alt (strPat "ism") (strPat "ist"), .wb],
    wordPat "christianity", wordPat "islam",
    pseq [.wb, strPat "hindu", .opt (strPat "ism"), .wb],
    wordPat "ai", wordPat "artificial intelligence",
    wordPat "social media", wordPat "climate change",
    wordPat "twitter", wordPat "tiktok", wordPat "instagram",
    wordPat "chatgpt" ]

/-- Embedding of `in_allowed_domain` from `rag.py`. -/
def in_allowed_domain (query : String) : Bool :=
  ALLOWED_TOPIC_PATTERNS.any (fun p => regexSearch p (pyLower query))

/-- Embedding of `has_banned_terms` from `rag.py`. -/
def has_banned_terms (query : String) : Bool :=
  BANNED_QUERY_PATTERNS.any (fun p => regexSearch p (pyLower query))

/-- Embedding of `STOPWORDS` from `rag.py`. -/
def STOPWORDS : List String :=
  [ "the", "a", "an", "and", "or", "to", "of", "in", "on", "for", "with",
    "is", "are", "was", "were",
    "what", "why", "how", "does", "do", "did", "should", "can", "could",
    "would", "i", "you", "we",
    "my", "your", "our", "me", "it", "this", "that", "these", "those" ]

/-- ASCII letter test, the character class of letters in `rag.py`. -/
def isAsciiAlpha (c : Char) : Bool :=
  ('a' ≤ c && c ≤ 'z') || ('A' ≤ c && c ≤ 'Z')

/-- Maximal runs of ASCII letters in a character list; `acc` holds the
current run reversed. -/
def runsAux (acc : List Char) : List Char → List (List Char)
  | [] => if acc.isEmpty then [] else [acc.reverse]
  | c :: rest =>
    if isAsciiAlpha c then runsAux (c :: acc) rest
    else if acc.isEmpty then runsAux [] rest
    else acc.reverse :: runsAux [] rest

/-- Model of `re.findall` of three or more letters over the lower-cased
text: the maximal alphabetic runs of length at least three, in order. -/
def alphaTokens (text : String) : List String :=
  ((runsAux [] (pyLower text).data).filter (fun r => 3 ≤ r.length)).map
    (fun r => String.mk r)

/-- Embedding of the keyword extractor of `rag.py` (tokens of three or
more letters, lower-cased, with the stopwords removed). -/
def keywordsOf (text : String) : List String :=
  (alphaTokens text).filter (fun t => !(STOPWORDS.contains t))

/-! ### Passages -/

/-- One record of `chunks.json`, as produced by ingestion. -/
structure ChunkRec where
  chunk : String
  source : String
  page : Int
deriving DecidableEq

/-- One ranked passage as assembled by `retrieve` in `rag.py`. -/
structure Passage where
  score : ℚ
  chunk : String
  source : String
  page : Int
deriving DecidableEq

/-- Embedding of `query_supported_by_context` from `rag.py`.  The Python
`set` of query terms is modelled by deduplication: the set is used only
for emptiness, iteration and cardinality. -/
def query_supported_by_context (query : String) (passages : List Passage) : Bool :=
  let q_terms := (keywordsOf query).dedup
  if q_terms.isEmpty then false
  else
    let ctx := pyLower (joinWith " " (passages.map (fun p => p.chunk)))
    let hits := q_terms.countP (fun t => containsSub t.data ctx.data)
    let required := if q_terms.length ≤ 4 then 1 else 2
    decide (required ≤ hits)

/-- Embedding of `should_refuse_query` from `rag.py`; the optional
`passages` keyword argument (default `None`) becomes an `Option`. -/
def should_refuse_query (query : String) (passages : Option (List Passage)) : Bool :=
  if has_banned_terms query then true
  else if (match passages with
           | some ps => !(query_supported_by_context query ps)
           | none => false) then true
  else if !(in_allowed_domain query) then true
  else false

/-! ### Retrieval -/

/-- RAG setting `TOP_K` from `rag.py`. -/
def TOP_K : Nat := 8

/-- RAG setting `MIN_SCORE` from `rag.py` (0.25, exactly representable). -/
def MIN_SCORE : ℚ := mkRat 1 4

/-- RAG setting `MIN_PASSAGES` from `rag.py` (defined there, never read). -/
def MIN_PASSAGES : Nat := 2

/-- RAG setting `MAX_CONTEXT_CHARS` from `rag.py`. -/
def MAX_CONTEXT_CHARS : Nat := 3000

/-- The rows `scores[0]` and `ids[0]` reported by `index.search` for the
embedded query in `retrieve`; an id of `-1` marks a missing neighbor. -/
structure SearchResult where
  scores : List ℚ
  ids : List Int
deriving DecidableEq

/-- Python list indexing `chunks[i]` for an integer index: negative
indices count from the end; out of range gives `none` (Python raises
`IndexError` there). -/
def pyGet (l : List ChunkRec) (i : Int) : Option ChunkRec :=
  if 0 ≤ i then l[i.toNat]?
  else if 0 ≤ (l.length : Int) + i then l[((l.length : Int) + i).toNat]?
  else none

/-- The result-building loop of `retrieve` in `rag.py`: skip missing
neighbors and scores below `MIN_SCORE`, look the rest up in the chunk
store; `none` models the `IndexError` raised by an out-of-range id. -/
def retrieveAux : List (ℚ × Int) → List ChunkRec → Option (List Passage)
  | [], _ => some []
  | (score, idx) :: rest, chunks =>
    if idx = -1 then retrieveAux rest chunks
    else if score < MIN_SCORE then retrieveAux rest chunks
    else
      match pyGet chunks idx with
      | none => none
      | some item =>
        match retrieveAux rest chunks with
        | none => none
        | some tail =>
          some ({ score := score, chunk := item.chunk,
                  source := item.source, page := item.page } :: tail)

/-- Embedding of `retrieve` from `rag.py`.  The query embedding and the
faiss call are summarized by their reported `SearchResult`; `best` is
`scores[0][0]` when the score row is nonempty and `0.0` otherwise. -/
def retrieve (search : SearchResult) (chunks : List ChunkRec) :
    Option (List Passage × ℚ) :=
  let best : ℚ := match search.scores with | [] => 0 | s :: _ => s
  match retrieveAux (search.scores.zip search.ids) chunks with
  | none => none
  | some results => some (results, best)

/-! ### Context assembly -/

/-- The provenance-tagged snippet built for one passage in
`build_context`. -/
def snippet (p : Passage) : String :=
  "[" ++ p.source ++ " p." ++ toString p.page ++ "] " ++ p.chunk

/-- The accumulation loop of `build_context`: stop at the first snippet
whose addition would push the running total over `MAX_CONTEXT_CHARS`. -/
def buildParts : List Passage → Nat → List String
  | [], _ => []
  | p :: rest, total =>
    let s := snippet p
    if total + s.length > MAX_CONTEXT_CHARS then []
    else s :: buildParts rest (total + s.length)

/-- Embedding of `build_context` from `rag.py`. -/
def build_context (passages : List Passage) : String :=
  joinWith "\n\n" (buildParts passages 0)

/-! ### Refusal and generation contract -/

/-- Embedding of `REFUSAL_TEXT` from `rag.py`. -/
def REFUSAL_TEXT : String :=
  "I cannot answer this question within the constraints of this agent. " ++
  "The answer would require concepts or frameworks not contained in the provided corpus."

/-- Embedding of `refuse` from `rag.py`. -/
def refuse : String := REFUSAL_TEXT

/-- The refusal sentence that `SYSTEM_RULES` instructs the external
generator to emit verbatim when it cannot answer. -/
def GEN_REFUSAL_SENTENCE : String :=
  "I cannot answer this question within the constraints of this agent. " ++
  "The answer is not supported by the provided corpus."

/-- Embedding of `SYSTEM_RULES` from `rag.py`, split around the quoted
refusal sentence it instructs the generator to use.  The escape
`â‰¤` reproduces the three mojibake characters that the
source file literally contains in the quote-length bullet. -/
def SYSTEM_RULES : String :=
  "\nYou are a constrained philosophical agent representing Existentialism, and you are STRICTLY LIMITED to the provided context passages." ++
  "\nYou MUST NOT use any external knowledge, biography, dates, history, psychology/therapy, clinical language, or modern frameworks." ++
  "\nIf the context does not directly support the answer, you MUST refuse." ++
  "\n\nREFUSAL RULE:" ++
  "\nIf you cannot point to the provided context as evidence for your answer, respond ONLY with:" ++
  "\n\"" ++ GEN_REFUSAL_SENTENCE ++ "\"" ++
  "\n\nSTYLE:" ++
  "\nBe concise, intellectually playful (dry existential humor is allowed), and Socratic." ++
  "\nYou are not a therapist. No advice." ++
  "\n\nMANDATORY OUTPUT STRUCTURE (NON-NEGOTIABLE):" ++
  "\n\nIf you answer (i.e., do not refuse), your response MUST contain EXACTLY TWO sections:" ++
  "\n\n[SECTION 1] Explanation" ++
  "\n- Explain using ONLY the context passages." ++
  "\n- Do NOT import external definitions or examples." ++
  "\n- Include EXACTLY ONE short quote (â‰¤ 25 words) taken directly from the context passages." ++
  "\n- If a source tag (filename/page) is present, include it." ++
  "\n\n[SECTION 2] Question:" ++
  "\n- Write EXACTLY ONE reflective question." ++
  "\n- The question must end with a question mark (?)." ++
  "\n- The question must make the user think." ++
  "\n- The question must relate to the concept explained in Section 1." ++
  "\n- Do NOT give advice, therapy, or prescriptions." ++
  "\n\nIf this structure is violated, the response is INVALID and must be regenerated.\n"

/-- The prompt assembled by `generate_answer` in `rag.py`. -/
def build_prompt (query context : String) : String :=
  SYSTEM_RULES ++ "\n\nUser question: " ++ query ++
  "\n\nContext passages (ONLY allowed source):\n" ++ context ++
  "\n\nNow respond following the mandatory structure."

/-- What the HTTP call to the generation service reports back: either a
timeout (the `requests.post` call is bounded by `timeout=120`) or a
response with a status code and the text of its `response` field. -/
inductive ServiceResult where
  | timeout : ServiceResult
  | response : Nat → String → ServiceResult
deriving DecidableEq

/-- The exceptions `generate_answer` can raise: the requests timeout,
or the HTTPError raised by `raise_for_status` on a 4xx/5xx status. -/
inductive GenError where
  | timeoutError : GenError
  | httpError : Nat → GenError
deriving DecidableEq

/-- The error `generate_answer` raises for each faulty service result
(arbitrary on non-faulty ones). -/
def faultErr : ServiceResult → GenError
  | .timeout => .timeoutError
  | .response status _ => .httpError status

/-- A faulty service outcome: a timeout, or a response whose status is
in the 4xx/5xx range that `raise_for_status` rejects. -/
def serviceFault (svc : ServiceResult) : Prop :=
  svc = .timeout ∨
    ∃ status body, svc = .response status body ∧ 400 ≤ status ∧ status < 600

/-- Embedding of `generate_answer` from `rag.py`: a timeout propagates
as an exception, `raise_for_status` raises on any status in [400, 600),
and otherwise the stripped `response` field is returned.  The service
result stands for the HTTP outcome of posting the prompt built by
`build_prompt query context`. -/
def generate_answer (query context : String) (svc : ServiceResult) :
    Except GenError String :=
  let prompt := build_prompt query context
  match svc with
  | .timeout => .error (faultErr svc)
  | .response status body =>
    if 400 ≤ status ∧ status < 600 then .error (faultErr svc)
    else
      let _ := prompt
      .ok (pyStrip body)

/-! ### The query pipeline of `app.py` -/

/-- Terminal outcome of one query in the Ask handler of `app.py`. -/
inductive PipeResult where
  | refused : PipeResult
  | answered : String → PipeResult
  | genFault : GenError → PipeResult
  | crash : PipeResult
deriving DecidableEq

/-- The checkpoints the Ask handler reaches, in order, used to state
which gates ran before the pipeline stopped. -/
inductive Event where
  | topicGate : Event
  | retrieval : Event
  | scoreGate : Event
  | supportGate : Event
  | generateCall : Event
  | selfCheck : Event
deriving DecidableEq

/-- Embedding of the Ask-button handler of `app.py` (its main logic,
lines 189-221): topic gate, retrieval, score gate, support gate,
generation, self-refusal check.  Returns the terminal outcome together
with the trace of checkpoints reached; `st.stop()` becomes an early
return. -/
def pipeline (query : String) (search : SearchResult)
    (chunks : List ChunkRec) (svc : ServiceResult) :
    PipeResult × List Event :=
  if should_refuse_query query none then (.refused, [.topicGate])
  else
    match retrieve search chunks with
    | none => (.crash, [.topicGate, .retrieval])
    | some (passages, best) =>
      if best < MIN_SCORE ∨ passages.length = 0 then
        (.refused, [.topicGate, .retrieval, .scoreGate])
      else if should_refuse_query query (some passages) then
        (.refused, [.topicGate, .retrieval, .scoreGate, .supportGate])
      else
        let context := build_context passages
        match generate_answer query context svc with
        | .error e =>
          (.genFault e,
           [.topicGate, .retrieval, .scoreGate, .supportGate, .generateCall])
        | .ok answer =>
          if pyStrip answer = pyStrip refuse then
            (.refused,
             [.topicGate, .retrieval, .scoreGate, .supportGate,
              .generateCall, .selfCheck])
          else
            (.answered answer,
             [.topicGate, .retrieval, .scoreGate, .supportGate,
              .generateCall, .selfCheck])

/-! ### Spec-side formulations

The definitions below are written from the words of the specification
claims, to be compared with the code-derived functions above. -/

/-- The set of distinct lower-cased alphabetic tokens of length at
least three of the query, minus the stopword list (claim C4's term
set). -/
def contentTermSet (query : String) : Finset String :=
  (alphaTokens query).toFinset \ STOPWORDS.toFinset

/-- The hit threshold of claim C4: one hit when the term set has at
most four terms, two otherwise. -/
def requiredHits (T : Finset String) : Nat :=
  if T.card ≤ 4 then 1 else 2

/-- The number of distinct terms of `T` occurring as substrings of
`ctx`. -/
def hitCount (T : Finset String) (ctx : String) : Nat :=
  (T.filter (fun t => containsSub t.data ctx.data = true)).card

/-- Claim C4 rendered literally: the context is the plain concatenation
of the chunk texts (no separator between chunks). -/
def claimC4_concat (query : String) (passages : List Passage) : Bool :=
  let T := contentTermSet query
  if T = ∅ then false
  else
    decide (requiredHits T ≤
      hitCount T (pyLower (joinWith "" (passages.map (fun p => p.chunk)))))

/-- Claim C4 with its one inaccuracy repaired: the chunk texts are
joined by a single space, as `query_supported_by_context` does. -/
def supportedJoinedSpec (query : String) (passages : List Passage) : Bool :=
  let T := contentTermSet query
  if T = ∅ then false
  else
    decide (requiredHits T ≤
      hitCount T (pyLower (joinWith " " (passages.map (fun p => p.chunk)))))

/-- Total length of a list of strings, without separators. -/
def sumLen (l : List String) : Nat :=
  (l.map String.length).sum

/-! ### Shared concrete inputs for witnesses -/

/-- An in-domain query (spec Scenario 1). -/
def exQuery : String := "What does Sartre mean by abandonment?"

/-- A chunk whose text supports `exQuery`. -/
def exChunk : ChunkRec :=
  { chunk := "Sartre discusses abandonment and freedom",
    source := "s.pdf", page := 3 }

/-- The passage `retrieve` builds from `exChunk` at score 9/10. -/
def exPassage : Passage :=
  { score := mkRat 9 10, chunk := "Sartre discusses abandonment and freedom",
    source := "s.pdf", page := 3 }

/-- A search result whose one neighbor scores 9/10 (above threshold). -/
def exSearch : SearchResult := { scores := [mkRat 9 10], ids := [0] }

/-- A search result whose one neighbor scores 1/10 (below threshold,
spec Scenario 4). -/
def exLowSearch : SearchResult := { scores := [mkRat 1 10], ids := [0] }

/-- A generation service response that answers normally. -/
def exSvc : ServiceResult := .response 200 "Some answer text."

/-! ## Helper lemmas -/

/-- The topic-gate call (no passages) passes exactly when no banned
pattern matches and some allowed pattern matches. -/
theorem srq_none_iff (query : String) :
    should_refuse_query query none = false ↔
      has_banned_terms query = false ∧ in_allowed_domain query = true := by
  unfold should_refuse_query
  cases hb : has_banned_terms query <;>
    cases ha : in_allowed_domain query <;> simp

/-- The support-gate call (with passages) passes exactly when no banned
pattern matches, the support check accepts, and some allowed pattern
matches. -/
theorem srq_some_iff (query : String) (ps : List Passage) :
    should_refuse_query query (some ps) = false ↔
      has_banned_terms query = false ∧
      query_supported_by_context query ps = true ∧
      in_allowed_domain query = true := by
  unfold should_refuse_query
  cases hb : has_banned_terms query <;>
    cases hs : query_supported_by_context query ps <;>
      cases ha : in_allowed_domain query <;> simp [hs]

/-- Every passage list produced by the result loop of `retrieve` only
holds passages at or above the score floor. -/
theorem retrieveAux_score_bound :
    ∀ (pairs : List (ℚ × Int)) (chunks : List ChunkRec)
      (res : List Passage), retrieveAux pairs chunks = some res →
      ∀ p ∈ res, MIN_SCORE ≤ p.score := by
  intro pairs
  induction pairs with
  | nil =>
    intro chunks res h p hp
    simp only [retrieveAux, Option.some.injEq] at h
    subst h
    simp at hp
  | cons hd tl ih =>
    intro chunks res h p hp
    obtain ⟨score, idx⟩ := hd
    simp only [retrieveAux] at h
    split at h
    · exact ih chunks res h p hp
    · split at h
      · exact ih chunks res h p hp
      · rename_i hidx hscore
        cases hg : pyGet chunks idx with
        | none => rw [hg] at h; exact absurd h (by simp)
        | some item =>
          rw [hg] at h
          cases ht : retrieveAux tl chunks with
          | none => rw [ht] at h; exact absurd h (by simp)
          | some tail =>
            rw [ht] at h
            simp only [Option.some.injEq] at h
            subst h
            rcases List.mem_cons.mp hp with hpe | hpm
            · subst hpe
              exact le_of_not_lt hscore
            · exact ih chunks tail ht p hpm

/-! ## The claims -/

/-- Claim C2: a query matching at least one banned-term pattern
(case-insensitively, i.e. on the lower-cased query) makes
`should_refuse_query` return true for every passages argument; the
banned-term check comes first and cannot be overridden. -/
theorem claim_C2 (query : String) (passages : Option (List Passage))
    (h : ∃ p ∈ BANNED_QUERY_PATTERNS, regexSearch p (pyLower query) = true) :
    should_refuse_query query passages = true := by
  have hb : has_banned_terms query = true := by
    simpa [has_banned_terms, List.any_eq_true] using h
  simp [should_refuse_query, hb]

/-- Witness for C2 at spec Scenario 2's query, with a passages list
whose contents could only help the support check. -/
theorem claim_C2_witness :
    (∃ p ∈ BANNED_QUERY_PATTERNS,
      regexSearch p
        (pyLower "How do I cope with anxiety using existentialism?") = true) ∧
    should_refuse_query "How do I cope with anxiety using existentialism?"
      (some [exPassage]) = true :=
  ⟨by decide, claim_C2 _ (some [exPassage]) (by decide)⟩

/-- Claim C3: a query matching none of the allowed-domain patterns makes
`should_refuse_query` return true, with and without passages. -/
theorem claim_C3 (query : String) (passages : Option (List Passage))
    (h : ∀ p ∈ ALLOWED_TOPIC_PATTERNS, regexSearch p (pyLower query) = false) :
    should_refuse_query query passages = true := by
  have ha : in_allowed_domain query = false := by
    simp only [in_allowed_domain, List.any_eq_false]
    intro p hp
    simp [h p hp]
  unfold should_refuse_query
  split
  · rfl
  · split
    · rfl
    · simp [ha]

/-- Witness for C3 at an off-domain query, for both the passages-absent
and passages-present invocations. -/
theorem claim_C3_witness :
    (∀ p ∈ ALLOWED_TOPIC_PATTERNS,
      regexSearch p (pyLower "weather report for tomorrow") = false) ∧
    should_refuse_query "weather report for tomorrow" none = true ∧
    should_refuse_query "weather report for tomorrow" (some [exPassage]) = true :=
  ⟨by decide, claim_C3 _ none (by decide), claim_C3 _ (some [exPassage]) (by decide)⟩

/-- Claim C5: every passage in the ranked list returned by `retrieve`
scores at least `MIN_SCORE`; nothing below the threshold appears. -/
theorem claim_C5 (search : SearchResult) (chunks : List ChunkRec)
    (ps : List Passage) (best : ℚ)
    (h : retrieve search chunks = some (ps, best)) :
    ∀ p ∈ ps, MIN_SCORE ≤ p.score := by
  unfold retrieve at h
  cases haux : retrieveAux (search.scores.zip search.ids) chunks with
  | none => rw [haux] at h; exact absurd h (by simp)
  | some res =>
    rw [haux] at h
    simp only [Option.some.injEq, Prod.mk.injEq] at h
    obtain ⟨hres, -⟩ := h
    subst hres
    exact retrieveAux_score_bound _ chunks _ haux

/-- Witness for C5: a two-neighbor search where the weak neighbor is
dropped; the surviving passage meets the floor. -/
theorem claim_C5_witness :
    retrieve { scores := [mkRat 9 10, mkRat 1 10], ids := [0, 0] } [exChunk] =
      some ([exPassage], mkRat 9 10) ∧
    MIN_SCORE ≤ exPassage.score :=
  ⟨by decide,
   claim_C5 { scores := [mkRat 9 10, mkRat 1 10], ids := [0, 0] } [exChunk]
     [exPassage] (mkRat 9 10) (by decide) exPassage (by decide)⟩

/-- Claim C6: `retrieve` reports as `bestScore` the raw score of the
first neighbor returned by the search, whether or not that neighbor
survives the per-passage filter; and an empty score row yields best
score 0 and an empty ranked list. -/
theorem claim_C6 (search : SearchResult) (chunks : List ChunkRec) :
    (∀ s rest ps best, search.scores = s :: rest →
       retrieve search chunks = some (ps, best) → best = s) ∧
    (search.scores = [] → retrieve search chunks = some ([], 0)) := by
  constructor
  · intro s rest ps best hs h
    unfold retrieve at h
    rw [hs] at h
    cases haux : retrieveAux ((s :: rest).zip search.ids) chunks with
    | none => rw [haux] at h; exact absurd h (by simp)
    | some res =>
      rw [haux] at h
      simp only [Option.some.injEq, Prod.mk.injEq] at h
      exact h.2.symm
  · intro hs
    unfold retrieve
    rw [hs]
    simp [retrieveAux]

/-- Witness for C6: the sole neighbor scores 1/10, below the floor, so
the ranked list is empty while the best score stays 1/10; and an empty
search row gives best score 0. -/
theorem claim_C6_witness :
    retrieve exLowSearch [exChunk] = some ([], mkRat 1 10) ∧
    (mkRat 1 10 : ℚ) = mkRat 1 10 ∧
    retrieve { scores := [], ids := [] } [exChunk] = some ([], 0) :=
  ⟨by decide,
   (claim_C6 exLowSearch [exChunk]).1 (mkRat 1 10) [] [] (mkRat 1 10)
     (by decide) (by decide),
   (claim_C6 { scores := [], ids := [] } [exChunk]).2 (by decide)⟩

/-- Bridge: the set of elements of the code's keyword list is the
claim's content-term set. -/
theorem keywords_toFinset (query : String) :
    (keywordsOf query).toFinset = contentTermSet query := by
  unfold keywordsOf contentTermSet
  rw [List.toFinset_filter]
  ext a
  simp [Finset.mem_sdiff]

/-- Bridge: deduplication does not change the element set. -/
theorem dedup_toFinset (l : List String) : l.dedup.toFinset = l.toFinset := by
  ext a
  simp [List.mem_dedup]

/-- Bridge: an empty element set means an empty list. -/
theorem toFinset_nil_iff (l : List String) : l.toFinset = ∅ ↔ l = [] := by
  constructor
  · intro h
    cases l with
    | nil => rfl
    | cons a t =>
      exfalso
      have ha : a ∈ (a :: t).toFinset := by simp
      rw [h] at ha
      simp at ha
  · intro h
    subst h
    simp

/-- Bridge: counting matches over the deduplicated list is the card of
the filtered element set. -/
theorem countP_dedup (l : List String) (p : String → Bool) :
    l.dedup.countP p = (l.toFinset.filter (fun a => p a = true)).card := by
  rw [List.countP_eq_length_filter,
    ← List.toFinset_card_of_nodup ((List.nodup_dedup l).filter p),
    List.toFinset_filter, dedup_toFinset]

/-- Counterexample to claim C4 as stated: for query "bad" and chunk
texts "ba" and "d", the plain concatenation of the chunks contains
"bad", so the claim's reading reports support; the code joins chunks
with a space and reports no support. -/
theorem claim_C4_counterexample :
    claimC4_concat "bad"
      [{ score := 1, chunk := "ba", source := "s", page := 1 },
       { score := 1, chunk := "d", source := "s", page := 1 }] = true ∧
    query_supported_by_context "bad"
      [{ score := 1, chunk := "ba", source := "s", page := 1 },
       { score := 1, chunk := "d", source := "s", page := 1 }] = false := by
  constructor <;> decide

/-- Claim C4, amended: `query_supported_by_context` behaves exactly as
the claim describes once the context is the space-joined (rather than
plainly concatenated) lower-cased chunk texts. -/
theorem claim_C4_amended (query : String) (passages : List Passage) :
    query_supported_by_context query passages =
      supportedJoinedSpec query passages := by
  have hTA := keywords_toFinset query
  by_cases hemp : (keywordsOf query).dedup.isEmpty
  · have hnil : keywordsOf query = [] := by
      rwa [List.isEmpty_eq_true, List.dedup_eq_nil] at hemp
    have hT : contentTermSet query = ∅ := by
      rw [← hTA, hnil]
      simp
    simp [query_supported_by_context, supportedJoinedSpec, hemp, hT]
  · have hnil : ¬keywordsOf query = [] := by
      intro h
      rw [h] at hemp
      simp [List.dedup_nil] at hemp
    have hT : ¬contentTermSet query = ∅ := by
      rw [← hTA, toFinset_nil_iff]
      exact hnil
    have hcard : (keywordsOf query).dedup.length = (contentTermSet query).card := by
      rw [← hTA, List.card_toFinset]
    have hhits : ∀ ctx : String,
        (keywordsOf query).dedup.countP (fun t => containsSub t.data ctx.data) =
          hitCount (contentTermSet query) ctx := by
      intro ctx
      rw [countP_dedup, hTA]
      rfl
    simp only [query_supported_by_context, supportedJoinedSpec,
      if_neg (by simpa using hemp), if_neg hT, hhits, requiredHits, hcard]
    rw [if_neg hemp]

/-- The snippet-accumulation loop keeps the running total of snippet
lengths within the character budget. -/
theorem buildParts_total :
    ∀ (passages : List Passage) (total : Nat),
      total ≤ MAX_CONTEXT_CHARS →
      total + sumLen (buildParts passages total) ≤ MAX_CONTEXT_CHARS := by
  intro passages
  induction passages with
  | nil =>
    intro total h
    simpa [buildParts, sumLen] using h
  | cons p rest ih =>
    intro total h
    simp only [buildParts]
    split
    · simpa [sumLen] using h
    · rename_i hfit
      have hle : total + (snippet p).length ≤ MAX_CONTEXT_CHARS := by omega
      have := ih (total + (snippet p).length) hle
      simp only [sumLen, List.map_cons, List.sum_cons] at this ⊢
      omega

/-- Length of a separator join: the lengths of the parts plus one
separator between each two consecutive parts. -/
theorem length_joinWith (sep : String) :
    ∀ l : List String,
      (joinWith sep l).length = sumLen l + sep.length * (l.length - 1)
  | [] => by simp [joinWith, sumLen]
  | [s] => by simp [joinWith, sumLen]
  | s :: r :: rest => by
    have ih := length_joinWith sep (r :: rest)
    simp only [joinWith] at ih ⊢
    rw [String.length_append, String.length_append, ih]
    simp only [sumLen, List.map_cons, List.sum_cons, List.length_cons,
      Nat.add_sub_cancel]
    ring

set_option maxRecDepth 100000 in
/-- Counterexample to claim C7 as stated: two passages whose snippets
measure 1500 characters each pass the accumulation check (total 3000),
but the blank-line separator pushes the joined context to 3002
characters, over the budget. -/
theorem claim_C7_counterexample :
    MAX_CONTEXT_CHARS <
      (build_context
        [{ score := 1, chunk := String.mk (List.replicate 1492 'x'),
           source := "s", page := 0 },
         { score := 1, chunk := String.mk (List.replicate 1492 'x'),
           source := "s", page := 0 }]).length := by
  decide

/-- Claim C7, amended: the snippet characters accumulated by
`build_context` never exceed the budget; the returned string itself can
exceed it only by the two-character blank-line separators, one between
each two consecutive snippets. -/
theorem claim_C7_amended (passages : List Passage) :
    sumLen (buildParts passages 0) ≤ MAX_CONTEXT_CHARS ∧
    (build_context passages).length ≤
      MAX_CONTEXT_CHARS + 2 * ((buildParts passages 0).length - 1) := by
  have h := buildParts_total passages 0 (by simp)
  constructor
  · omega
  · unfold build_context
    rw [length_joinWith]
    have hsep : ("\n\n" : String).length = 2 := by decide
    rw [hsep]
    omega

/-- Structural characterization of the answered outcome: the Ask
handler surfaces an answer exactly when every gate test, as written in
`app.py`, lets it through. -/
theorem pipeline_answered_iff (query : String) (search : SearchResult)
    (chunks : List ChunkRec) (svc : ServiceResult) (ans : String) :
    (pipeline query search chunks svc).1 = PipeResult.answered ans ↔
      should_refuse_query query none = false ∧
      ∃ ps best, retrieve search chunks = some (ps, best) ∧
        ¬(best < MIN_SCORE ∨ ps.length = 0) ∧
        should_refuse_query query (some ps) = false ∧
        generate_answer query (build_context ps) svc = Except.ok ans ∧
        pyStrip ans ≠ pyStrip refuse := by
  unfold pipeline
  cases h1 : should_refuse_query query none with
  | true => simp [h1]
  | false =>
    simp only [Bool.false_eq_true, if_false, true_and]
    cases hr : retrieve search chunks with
    | none => simp
    | some pb =>
      obtain ⟨ps, best⟩ := pb
      simp only [Option.some.injEq, Prod.mk.injEq]
      by_cases hsc : best < MIN_SCORE ∨ ps.length = 0
      · rw [if_pos hsc]
        simp only [reduceCtorEq, false_iff, not_exists]
        rintro ps' best' ⟨⟨hps, hbest⟩, hrest⟩
        subst hps; subst hbest
        exact hrest.1 hsc
      · rw [if_neg hsc]
        cases h2 : should_refuse_query query (some ps) with
        | true =>
          simp only [if_true, reduceCtorEq, false_iff, not_exists]
          rintro ps' best' ⟨⟨hps, hbest⟩, -, hsrq, -⟩
          subst hps
          rw [h2] at hsrq
          exact Bool.true_eq_false.mp hsrq
        | false =>
          simp only [Bool.false_eq_true, if_false]
          cases hg : generate_answer query (build_context ps) svc with
          | error e =>
            dsimp only
            simp only [reduceCtorEq, false_iff, not_exists]
            rintro ps' best' ⟨⟨hps, hbest⟩, -, -, hgen, -⟩
            subst hps
            rw [hg] at hgen
            exact absurd hgen (by simp)
          | ok answer =>
            dsimp only
            by_cases href : pyStrip answer = pyStrip refuse
            · rw [if_pos href]
              simp only [reduceCtorEq, false_iff, not_exists]
              rintro ps' best' ⟨⟨hps, hbest⟩, -, -, hgen, hne⟩
              subst hps
              rw [hg] at hgen
              obtain rfl : answer = ans := by simpa using hgen
              exact hne href
            · rw [if_neg href]
              constructor
              · intro hone
                obtain rfl : answer = ans := by simpa using hone
                exact ⟨ps, best, ⟨rfl, rfl⟩, hsc, h2, hg, href⟩
              · rintro ⟨ps', best', ⟨hps, hbest⟩, -, -, hgen, -⟩
                subst hps
                rw [hg] at hgen
                obtain rfl : answer = ans := by simpa using hgen
                rfl

/-- Claim C1: the pipeline surfaces generator output (the answered
state) exactly when all four gates pass: the topic gate accepts the
query, the best score meets the threshold with a nonempty ranked list,
the support verifier accepts the query against the passages, and the
generator's stripped output differs from the stripped canonical
refusal; and whenever retrieval and generation themselves succeed, the
only outcomes are an answer or the canonical refusal, so failing any
gate forces the refusal. -/
theorem claim_C1 (query : String) (search : SearchResult)
    (chunks : List ChunkRec) (svc : ServiceResult) (ans : String) :
    ((pipeline query search chunks svc).1 = PipeResult.answered ans ↔
      should_refuse_query query none = false ∧
      ∃ ps best, retrieve search chunks = some (ps, best) ∧
        ¬best < MIN_SCORE ∧ ps ≠ [] ∧
        query_supported_by_context query ps = true ∧
        generate_answer query (build_context ps) svc = Except.ok ans ∧
        pyStrip ans ≠ pyStrip REFUSAL_TEXT) ∧
    (∀ ps best a, retrieve search chunks = some (ps, best) →
      generate_answer query (build_context ps) svc = Except.ok a →
      (pipeline query search chunks svc).1 = PipeResult.answered a ∨
      (pipeline query search chunks svc).1 = PipeResult.refused) := by
  constructor
  · rw [pipeline_answered_iff]
    constructor
    · rintro ⟨h1, ps, best, hr, hsc, h2, hg, hne⟩
      rw [not_or] at hsc
      obtain ⟨hbest, hlen⟩ := hsc
      refine ⟨h1, ps, best, hr, hbest, ?_, ?_, hg, hne⟩
      · intro h
        exact hlen (by simp [h])
      · exact ((srq_some_iff query ps).mp h2).2.1
    · rintro ⟨h1, ps, best, hr, hbest, hne, hsup, hg, hstrip⟩
      obtain ⟨hban, hall⟩ := (srq_none_iff query).mp h1
      refine ⟨h1, ps, best, hr, ?_, ?_, hg, hstrip⟩
      · rw [not_or]
        exact ⟨hbest, fun h => hne (List.length_eq_zero.mp h)⟩
      · exact (srq_some_iff query ps).mpr ⟨hban, hsup, hall⟩
  · intro ps best a hr hg
    unfold pipeline
    by_cases h1 : should_refuse_query query none = true
    · rw [if_pos h1]
      exact Or.inr rfl
    · rw [if_neg h1, hr]
      dsimp only
      by_cases hsc : best < MIN_SCORE ∨ ps.length = 0
      · rw [if_pos hsc]
        exact Or.inr rfl
      · rw [if_neg hsc]
        by_cases h2 : should_refuse_query query (some ps) = true
        · rw [if_pos h2]
          exact Or.inr rfl
        · rw [if_neg h2]
          rw [hg]
          dsimp only
          by_cases href : pyStrip a = pyStrip refuse
          · rw [if_pos href]
            exact Or.inr rfl
          · rw [if_neg href]
            exact Or.inl rfl

/-- Witness for C1: with Scenario 1's query, a strong passage and a
normal generator answer, every gate passes and the pipeline surfaces
the generator's text. -/
theorem claim_C1_witness :
    (pipeline exQuery exSearch [exChunk] exSvc).1 =
      PipeResult.answered "Some answer text." :=
  (claim_C1 exQuery exSearch [exChunk] exSvc "Some answer text.").1.mpr
    ⟨by decide, [exPassage], mkRat 9 10, by decide, by decide, by decide,
     by decide, by rfl, by decide⟩

/-- Claim C8: once the topic gate has passed, a best score below the
threshold or an empty ranked list stops the pipeline at the score
check: the outcome is the refusal, and neither the support gate nor the
generator is ever reached. -/
theorem claim_C8 (query : String) (search : SearchResult)
    (chunks : List ChunkRec) (svc : ServiceResult)
    (ps : List Passage) (best : ℚ)
    (h1 : should_refuse_query query none = false)
    (h2 : retrieve search chunks = some (ps, best))
    (h3 : best < MIN_SCORE ∨ ps = []) :
    pipeline query search chunks svc =
      (PipeResult.refused, [Event.topicGate, Event.retrieval, Event.scoreGate]) ∧
    Event.supportGate ∉ (pipeline query search chunks svc).2 ∧
    Event.generateCall ∉ (pipeline query search chunks svc).2 := by
  have hsc : best < MIN_SCORE ∨ ps.length = 0 := by
    rcases h3 with h | h
    · exact Or.inl h
    · exact Or.inr (by simp [h])
  have hp : pipeline query search chunks svc =
      (PipeResult.refused, [Event.topicGate, Event.retrieval, Event.scoreGate]) := by
    unfold pipeline
    rw [if_neg (by simp [h1]), h2]
    dsimp only
    rw [if_pos hsc]
  refine ⟨hp, ?_, ?_⟩ <;> rw [hp] <;> decide

/-- Witness for C8 at Scenario 4: the sole neighbor scores 1/10 against
the 1/4 threshold, so after the topic gate passes the run ends at the
score check with the refusal and no later checkpoint. -/
theorem claim_C8_witness :
    should_refuse_query exQuery none = false ∧
    retrieve exLowSearch [exChunk] = some ([], mkRat 1 10) ∧
    pipeline exQuery exLowSearch [exChunk] exSvc =
      (PipeResult.refused, [Event.topicGate, Event.retrieval, Event.scoreGate]) :=
  ⟨by decide, by decide,
   (claim_C8 exQuery exLowSearch [exChunk] exSvc [] (mkRat 1 10)
     (by decide) (by decide) (Or.inr rfl)).1⟩

/-- Claim C9: a service timeout or a 4xx/5xx status makes
`generate_answer` raise the corresponding exception rather than return
any string — in particular not the canonical refusal — and when the
pipeline has reached the generation call, that exception surfaces as a
generator fault distinct from the refusal outcome. -/
theorem claim_C9 (query ctx : String) (search : SearchResult)
    (chunks : List ChunkRec) (svc : ServiceResult)
    (hfault : serviceFault svc)
    (hreach : Event.generateCall ∈ (pipeline query search chunks svc).2) :
    generate_answer query ctx svc = Except.error (faultErr svc) ∧
    generate_answer query ctx svc ≠ Except.ok REFUSAL_TEXT ∧
    (pipeline query search chunks svc).1 = PipeResult.genFault (faultErr svc) ∧
    (pipeline query search chunks svc).1 ≠ PipeResult.refused := by
  have hgen : ∀ a b : String,
      generate_answer a b svc = Except.error (faultErr svc) := by
    intro a b
    rcases hfault with h | ⟨status, body, h, h4, h6⟩
    · subst h; rfl
    · subst h
      unfold generate_answer
      dsimp only
      rw [if_pos ⟨h4, h6⟩]
  have hpipe : (pipeline query search chunks svc).1 =
      PipeResult.genFault (faultErr svc) := by
    unfold pipeline at hreach ⊢
    by_cases h1 : should_refuse_query query none = true
    · rw [if_pos h1] at hreach
      simp at hreach
    · rw [if_neg h1] at hreach ⊢
      cases hr : retrieve search chunks with
      | none =>
        rw [hr] at hreach
        simp at hreach
      | some pb =>
        obtain ⟨ps, best⟩ := pb
        rw [hr] at hreach
        dsimp only at hreach ⊢
        by_cases hsc : best < MIN_SCORE ∨ ps.length = 0
        · rw [if_pos hsc] at hreach
          simp at hreach
        · rw [if_neg hsc] at hreach ⊢
          by_cases h2 : should_refuse_query query (some ps) = true
          · rw [if_pos h2] at hreach
            simp at hreach
          · rw [if_neg h2] at hreach ⊢
            rw [hgen query (build_context ps)]
  refine ⟨hgen query ctx, ?_, hpipe, ?_⟩
  · rw [hgen query ctx]
    simp
  · rw [hpipe]
    simp

/-- Witness for C9: a timeout on Scenario 1's otherwise-passing run is
surfaced as the timeout fault, not a refusal. -/
theorem claim_C9_witness :
    serviceFault ServiceResult.timeout ∧
    generate_answer exQuery "ctx" ServiceResult.timeout =
      Except.error (faultErr ServiceResult.timeout) ∧
    (pipeline exQuery exSearch [exChunk] ServiceResult.timeout).1 =
      PipeResult.genFault (faultErr ServiceResult.timeout) ∧
    (pipeline exQuery exSearch [exChunk] ServiceResult.timeout).1 ≠
      PipeResult.refused := by
  have h := claim_C9 exQuery "ctx" exSearch [exChunk] ServiceResult.timeout
    (Or.inl rfl) (by decide)
  exact ⟨Or.inl rfl, h.1, h.2.2.1, h.2.2.2⟩

set_option maxRecDepth 100000 in
/-- Claim C10: the refusal sentence that `SYSTEM_RULES` dictates to the
generator differs from the canonical `REFUSAL_TEXT` (also after
stripping), the dictated sentence does occur inside `SYSTEM_RULES`, and
a generator that emits exactly the dictated sentence on an
all-gates-passing run is surfaced as an answer, not as a refusal. -/
theorem claim_C10 :
    GEN_REFUSAL_SENTENCE ≠ REFUSAL_TEXT ∧
    pyStrip GEN_REFUSAL_SENTENCE ≠ pyStrip REFUSAL_TEXT ∧
    containsSub GEN_REFUSAL_SENTENCE.data SYSTEM_RULES.data = true ∧
    (pipeline exQuery exSearch [exChunk]
        (.response 200 GEN_REFUSAL_SENTENCE)).1 =
      PipeResult.answered GEN_REFUSAL_SENTENCE := by
  refine ⟨by decide, by decide, by decide, by decide⟩

end ExistAgent




